import Mathlib

/-!
Verification development for the Wikidata meetup notebook
(`meetupNotebook_API_and_pywikibot.ipynb`).

The notebook performs a linear authenticated-write sequence against the
Wikidata JSON API:
  cell-17: create a session, GET `action=query&meta=tokens&type=login`,
           extract `query.tokens.logintoken`;
  cell-19: POST `action=login` with lgname, lgpassword, lgtoken; the
           result string is only printed, there is no branch on it;
  cell-21: GET `action=query&meta=tokens`, extract `query.tokens.csrftoken`
           into the same `token` variable (overwriting the login token);
  cell-23: POST `action=wbcreateclaim` carrying that token; the JSON
           response is printed.
Cell-5 (entity search) prints one line per search hit with membership
guards on the optional `label` and `description` fields.

The embedding below models JSON values, the outbound requests each cell
builds, the unguarded / guarded key extractions, and the run of the
sequence against an environment that supplies the response to the i-th
outbound call.
-/

/-- A JSON value, as far as the notebook inspects one: strings, numbers
and objects (association lists of fields). -/
inductive Json where
  | str : String → Json
  | num : Int → Json
  | obj : List (String × Json) → Json
deriving Repr

/-- `j.getKey k` models the Python subscript `j[k]` on a dict: `some`
of the field value when `j` is an object holding key `k`, otherwise
`none` (the Python code would raise `KeyError` / `TypeError`). -/
def Json.getKey : Json → String → Option Json
  | .obj fields, k => (fields.find? (fun p => p.1 == k)).map (fun p => p.2)
  | _, _ => none

/-- Extract a JSON string, as the notebook does when it uses a field as
a token value. -/
def Json.asString : Json → Option String
  | .str s => some s
  | _ => none

/-- Cell-17 extraction: `response.json()['query']['tokens']['logintoken']`. -/
def extractLoginToken (j : Json) : Option String :=
  (j.getKey "query").bind (fun q => (q.getKey "tokens").bind
    (fun t => (t.getKey "logintoken").bind Json.asString))

/-- Cell-19 extraction: `response.json()['login']['result']`. -/
def extractLoginResult (j : Json) : Option String :=
  (j.getKey "login").bind (fun l => (l.getKey "result").bind Json.asString)

/-- Cell-21 extraction: `response.json()['query']['tokens']['csrftoken']`. -/
def extractCsrfToken (j : Json) : Option String :=
  (j.getKey "query").bind (fun q => (q.getKey "tokens").bind
    (fun t => (t.getKey "csrftoken").bind Json.asString))

/-- HTTP method of an outbound call. -/
inductive Method where
  | httpGet
  | httpPost
deriving DecidableEq, Repr

/-- The fixed API endpoint (`API_URI` in the notebook). -/
def API_URI : String := "https://www.wikidata.org/w/api.php"

/-- One outbound HTTP call as the notebook builds it: method, the id of
the `requests.Session` it is issued through, target URI, and the
parameter mapping in the order the source writes it. -/
structure Request where
  method : Method
  sessionId : Nat
  uri : String
  params : List (String × String)
deriving DecidableEq, Repr

/-- Look up a parameter of a request by key (first occurrence). -/
def requestParam (r : Request) (k : String) : Option String :=
  (r.params.find? (fun p => p.1 == k)).map (fun p => p.2)

/-- The `action` discriminator of a request. -/
def requestAction (r : Request) : Option String :=
  requestParam r "action"

/-- The login and bot-password pair cell-19 sends. -/
structure Credentials where
  lgname : String
  lgpassword : String
deriving DecidableEq, Repr

/-- The claim payload cell-23 sends: entity id, property id, snak type
tag, human-readable summary, and the serialized value. -/
structure ClaimPayload where
  entity : String
  property : String
  snaktype : String
  summary : String
  value : String
deriving DecidableEq, Repr

/-- Cell-17 request: GET for a login token, through session `sid`. -/
def loginTokenRequest (sid : Nat) : Request :=
  ⟨.httpGet, sid, API_URI,
    [("action", "query"), ("format", "json"), ("meta", "tokens"),
     ("type", "login")]⟩

/-- Cell-19 request: POST of the login action with the credentials and
the login token, through session `sid`. -/
def loginRequest (sid : Nat) (c : Credentials) (lgtoken : String) : Request :=
  ⟨.httpPost, sid, API_URI,
    [("action", "login"), ("lgname", c.lgname),
     ("lgpassword", c.lgpassword), ("lgtoken", lgtoken),
     ("format", "json")]⟩

/-- Cell-21 request: GET for the edit (CSRF) token, through session
`sid`; same as cell-17 but without the `type` parameter. -/
def csrfTokenRequest (sid : Nat) : Request :=
  ⟨.httpGet, sid, API_URI,
    [("action", "query"), ("format", "json"), ("meta", "tokens")]⟩

/-- Cell-23 request: POST of `wbcreateclaim` with the payload and the
current token, through session `sid`. -/
def createClaimRequest (sid : Nat) (p : ClaimPayload) (token : String) :
    Request :=
  ⟨.httpPost, sid, API_URI,
    [("action", "wbcreateclaim"), ("entity", p.entity),
     ("format", "json"), ("property", p.property),
     ("snaktype", p.snaktype), ("summary", p.summary),
     ("token", token), ("value", p.value)]⟩

/-- Whether a request is the mutating `wbcreateclaim` commit call. -/
def isCreateClaim (r : Request) : Bool :=
  requestAction r == some "wbcreateclaim"

/-- Whether a request is the `login` authenticate call. -/
def isLoginCall (r : Request) : Bool :=
  requestAction r == some "login"

/-- The step of the sequence at which an unguarded key extraction can
fail (modelling the `KeyError` the Python code would raise there). -/
inductive ApiStep where
  | loginTokenStep
  | loginStep
  | csrfTokenStep
deriving DecidableEq, Repr

/-- Outcome of the three authentication cells (17, 19, 21): the list of
outbound calls in order, and either the error at the step whose
response extraction raised, or the printed login result together with
the edit token the run ends holding. -/
structure AuthRun where
  calls : List Request
  result : Except ApiStep (String × String)
deriving Repr

/-- The three authentication cells run in order against an environment
`env` where `env i` is the response to the i-th outbound call. Faithful
to the source: the login result is only bound (printed), never
branched on, so the CSRF request of cell-21 is issued whatever the
login result says; an extraction failure halts the run (a raised
`KeyError` stops notebook execution). -/
def runAuthProcedure (env : Nat → Json) (sid : Nat) (c : Credentials) :
    AuthRun :=
  let call0 := loginTokenRequest sid
  match extractLoginToken (env 0) with
  | none => ⟨[call0], .error .loginTokenStep⟩
  | some lgtok =>
    let call1 := loginRequest sid c lgtok
    match extractLoginResult (env 1) with
    | none => ⟨[call0, call1], .error .loginStep⟩
    | some loginResult =>
      let call2 := csrfTokenRequest sid
      match extractCsrfToken (env 2) with
      | none => ⟨[call0, call1, call2], .error .csrfTokenStep⟩
      | some csrf => ⟨[call0, call1, call2], .ok (loginResult, csrf)⟩

/-- Cell-23 as an operation on the outbound-call trace: one
unconditional `session.post` of the commit request. There is no guard,
no lookup of previous commits, and no retry around it. -/
def commitStep (sid : Nat) (p : ClaimPayload) (token : String)
    (calls : List Request) : List Request :=
  calls ++ [createClaimRequest sid p token]

/-- Outcome of the whole write sequence (cells 17, 19, 21, 23): the
outbound calls in order and either the error step or the printed login
result, the edit token used, and the commit response JSON that cell-23
prints. -/
structure WriteRun where
  calls : List Request
  result : Except ApiStep (String × String × Json)
deriving Repr

/-- The whole write sequence: the three authentication cells, then the
commit cell using the token the authentication run ends holding. -/
def runWriteProcedure (env : Nat → Json) (sid : Nat) (c : Credentials)
    (p : ClaimPayload) : WriteRun :=
  let a := runAuthProcedure env sid c
  match a.result with
  | .error e => ⟨a.calls, .error e⟩
  | .ok (loginResult, token) =>
    ⟨commitStep sid p token a.calls, .ok (loginResult, token, env 3)⟩

/-- A mocked environment whose three authentication responses succeed:
login token `T1`, login result `Success`, edit token `T2`. -/
def happyEnv : Nat → Json
  | 0 => .obj [("query", .obj [("tokens", .obj [("logintoken", .str "T1")])])]
  | 1 => .obj [("login", .obj [("result", .str "Success")])]
  | 2 => .obj [("query", .obj [("tokens", .obj [("csrftoken", .str "T2")])])]
  | _ => .obj [("success", .num 1)]

/-- A mocked environment identical to `happyEnv` except that the login
response signals failure. -/
def failEnv : Nat → Json
  | 1 => .obj [("login", .obj [("result", .str "Failed")])]
  | n => happyEnv n

/-- Concrete credentials for witnesses. -/
def demoCreds : Credentials := ⟨"N", "P"⟩

/-- Concrete claim payload for witnesses. -/
def demoPayload : ClaimPayload := ⟨"Q15397819", "P103", "value", "add claim to sandbox", "V"⟩

/-- Outcome type of the commit-write step.

Modelled from the spec: the remote service answering `wbcreateclaim` is
not part of src/ (the notebook only issues the request and prints the
response); per the external-interface description, the create/write
action "returns a confirmation object containing a new statement
identifier and revision id, or an error object". -/
inductive CommitResult where
  | confirmation (statementId : String) (revisionId : Nat)
  | failure (errorInfo : Json)
deriving Repr

/-- Modelled from the spec: the commit-write step hands the payload and
the edit token to the remote collaborator and returns its verdict
unchanged (the notebook performs no local processing of the commit
response beyond printing it). -/
def commitWrite (remote : ClaimPayload → String → CommitResult)
    (p : ClaimPayload) (token : String) : CommitResult :=
  remote p token

/-- A search hit as cell-5 sees it: a flat mapping from field names to
string values. -/
abbrev SearchHit := List (String × String)

/-- Field access on a search hit; `none` models a missing key. -/
def hitField (h : SearchHit) (k : String) : Option String :=
  (h.find? (fun p => p.1 == k)).map (fun p => p.2)

/-- Cell-5 display of one search hit:
`page_id = hit['id']` is unguarded; `label` falls back to the empty
string when the key is absent; `description` is wrapped in parentheses
when present and omitted (empty) when absent; the printed line is
`page_id + ': ' + label + ' ' + description`. -/
def searchResultLine (hit : SearchHit) : Option String :=
  (hitField hit "id").map (fun page_id =>
    let label :=
      match hitField hit "label" with
      | some l => l
      | none => ""
    let description :=
      match hitField hit "description" with
      | some d => "(" ++ d ++ ")"
      | none => ""
    page_id ++ ": " ++ label ++ " " ++ description)

/-- An environment all of whose responses are empty objects (every
extraction fails). -/
def emptyEnv : Nat → Json := fun _ => .obj []

/-- C1: if the three mocked authentication responses succeed (login
token, login success, edit token), the procedure issues exactly three
outbound calls, in the order login-token request, authenticate,
edit-token request, and ends holding the edit token extracted from the
third response. -/
theorem auth_three_calls_in_order (env : Nat → Json) (sid : Nat)
    (c : Credentials) (t1 t2 : String)
    (h0 : extractLoginToken (env 0) = some t1)
    (h1 : extractLoginResult (env 1) = some "Success")
    (h2 : extractCsrfToken (env 2) = some t2) :
    (runAuthProcedure env sid c).calls =
      [loginTokenRequest sid, loginRequest sid c t1, csrfTokenRequest sid] ∧
    (runAuthProcedure env sid c).result = .ok ("Success", t2) := by
  simp [runAuthProcedure, h0, h1, h2]

/-- C1 witness: on the mocked responses with tokens `T1` and `T2` the
three calls are issued in order and the run ends holding `T2`. -/
theorem auth_three_calls_in_order_witness :
    (runAuthProcedure happyEnv 0 demoCreds).calls =
      [loginTokenRequest 0, loginRequest 0 demoCreds "T1",
       csrfTokenRequest 0] ∧
    (runAuthProcedure happyEnv 0 demoCreds).result = .ok ("Success", "T2") :=
  auth_three_calls_in_order happyEnv 0 demoCreds "T1" "T2" rfl rfl rfl

/-- C2 counterexample: with mocked responses whose login result is
`Failed`, the procedure does not halt after the authenticate step: it
still issues the edit-token request and the commit request (four
outbound calls in total instead of two), refuting the claim that a
failed login is followed by zero further calls. -/
theorem login_failure_still_commits_cex :
    extractLoginResult (failEnv 1) = some "Failed" ∧
    (runWriteProcedure failEnv 0 demoCreds demoPayload).calls =
      [loginTokenRequest 0, loginRequest 0 demoCreds "T1",
       csrfTokenRequest 0, createClaimRequest 0 demoPayload "T2"] ∧
    (runWriteProcedure failEnv 0 demoCreds demoPayload).calls.length = 4 := by
  refine ⟨rfl, rfl, rfl⟩

/-- C2 amended: when the authenticate step returns a failure result,
the procedure does not retry the login (the login call is issued
exactly once) and the failure result reaches the caller unchanged, but
it does not halt: it goes on to issue the edit-token request and the
commit request. -/
theorem login_failure_no_retry_but_continues (env : Nat → Json) (sid : Nat)
    (c : Credentials) (p : ClaimPayload) (res t1 t2 : String)
    (h0 : extractLoginToken (env 0) = some t1)
    (h1 : extractLoginResult (env 1) = some res)
    (_hfail : res ≠ "Success")
    (h2 : extractCsrfToken (env 2) = some t2) :
    (runWriteProcedure env sid c p).calls =
      [loginTokenRequest sid, loginRequest sid c t1, csrfTokenRequest sid,
       createClaimRequest sid p t2] ∧
    ((runWriteProcedure env sid c p).calls.filter isLoginCall).length = 1 ∧
    (runWriteProcedure env sid c p).result = .ok (res, t2, env 3) := by
  refine ⟨?_, ?_, ?_⟩ <;>
    simp [runWriteProcedure, runAuthProcedure, commitStep, h0, h1, h2,
      isLoginCall, requestAction, requestParam, loginTokenRequest,
      loginRequest, csrfTokenRequest, createClaimRequest, List.filter]

/-- C2 amended witness: on the failing mocked environment the run makes
the four calls, logs in exactly once, and returns the `Failed` result. -/
theorem login_failure_no_retry_but_continues_witness :
    (runWriteProcedure failEnv 0 demoCreds demoPayload).calls =
      [loginTokenRequest 0, loginRequest 0 demoCreds "T1",
       csrfTokenRequest 0, createClaimRequest 0 demoPayload "T2"] ∧
    ((runWriteProcedure failEnv 0 demoCreds demoPayload).calls.filter
        isLoginCall).length = 1 ∧
    (runWriteProcedure failEnv 0 demoCreds demoPayload).result =
      .ok ("Failed", "T2", failEnv 3) :=
  login_failure_no_retry_but_continues failEnv 0 demoCreds demoPayload
    "Failed" "T1" "T2" rfl rfl (by decide) rfl

@[simp] lemma isCreateClaim_loginTokenRequest (sid : Nat) :
    isCreateClaim (loginTokenRequest sid) = false := rfl

@[simp] lemma isCreateClaim_loginRequest (sid : Nat) (c : Credentials)
    (t : String) : isCreateClaim (loginRequest sid c t) = false := rfl

@[simp] lemma isCreateClaim_csrfTokenRequest (sid : Nat) :
    isCreateClaim (csrfTokenRequest sid) = false := rfl

@[simp] lemma isCreateClaim_createClaimRequest (sid : Nat) (p : ClaimPayload)
    (t : String) : isCreateClaim (createClaimRequest sid p t) = true := rfl

@[simp] lemma isLoginCall_loginTokenRequest (sid : Nat) :
    isLoginCall (loginTokenRequest sid) = false := rfl

@[simp] lemma isLoginCall_loginRequest (sid : Nat) (c : Credentials)
    (t : String) : isLoginCall (loginRequest sid c t) = true := rfl

@[simp] lemma isLoginCall_csrfTokenRequest (sid : Nat) :
    isLoginCall (csrfTokenRequest sid) = false := rfl

@[simp] lemma isLoginCall_createClaimRequest (sid : Nat) (p : ClaimPayload)
    (t : String) : isLoginCall (createClaimRequest sid p t) = false := rfl

/-- Any commit request in a run of the write sequence arises from the
fully successful branch: all three extractions succeeded and the
request is the cell-23 request built with the CSRF token. -/
lemma createClaim_mem_structure (env : Nat → Json) (sid : Nat)
    (c : Credentials) (p : ClaimPayload) (r : Request)
    (hmem : r ∈ (runWriteProcedure env sid c p).calls)
    (hcc : isCreateClaim r = true) :
    ∃ t1 res t2, extractLoginToken (env 0) = some t1 ∧
      extractLoginResult (env 1) = some res ∧
      extractCsrfToken (env 2) = some t2 ∧
      r = createClaimRequest sid p t2 ∧
      (runWriteProcedure env sid c p).calls =
        [loginTokenRequest sid, loginRequest sid c t1, csrfTokenRequest sid,
         createClaimRequest sid p t2] := by
  cases h0 : extractLoginToken (env 0) with
  | none =>
    simp [runWriteProcedure, runAuthProcedure, h0] at hmem
    subst hmem
    simp at hcc
  | some t1 =>
    cases h1 : extractLoginResult (env 1) with
    | none =>
      simp [runWriteProcedure, runAuthProcedure, h0, h1] at hmem
      rcases hmem with hmem | hmem <;> subst hmem <;> simp at hcc
    | some res =>
      cases h2 : extractCsrfToken (env 2) with
      | none =>
        simp [runWriteProcedure, runAuthProcedure, h0, h1, h2] at hmem
        rcases hmem with hmem | hmem | hmem <;> subst hmem <;> simp at hcc
      | some t2 =>
        refine ⟨t1, res, t2, rfl, rfl, rfl, ?_, ?_⟩
        · simp [runWriteProcedure, runAuthProcedure, commitStep, h0, h1, h2]
            at hmem
          rcases hmem with hmem | hmem | hmem | hmem <;> subst hmem <;>
            first
            | rfl
            | simp at hcc
        · simp [runWriteProcedure, runAuthProcedure, commitStep, h0, h1, h2]

/-- Any login (authenticate) request in a run of the authentication
cells is the cell-19 request, built with the token extracted from the
first response, sitting right after the login-token request. -/
lemma login_mem_structure (env : Nat → Json) (sid : Nat) (c : Credentials)
    (r : Request)
    (hmem : r ∈ (runAuthProcedure env sid c).calls)
    (hl : isLoginCall r = true) :
    ∃ t1, extractLoginToken (env 0) = some t1 ∧
      r = loginRequest sid c t1 ∧
      (runAuthProcedure env sid c).calls.get? 0 =
        some (loginTokenRequest sid) ∧
      (runAuthProcedure env sid c).calls.get? 1 = some r := by
  cases h0 : extractLoginToken (env 0) with
  | none =>
    simp [runAuthProcedure, h0] at hmem
    subst hmem
    simp at hl
  | some t1 =>
    cases h1 : extractLoginResult (env 1) with
    | none =>
      have hcalls : (runAuthProcedure env sid c).calls =
          [loginTokenRequest sid, loginRequest sid c t1] := by
        simp [runAuthProcedure, h0, h1]
      rw [hcalls] at hmem
      simp at hmem
      rcases hmem with hmem | hmem <;> subst hmem
      · simp at hl
      · exact ⟨t1, rfl, rfl, by rw [hcalls]; rfl, by rw [hcalls]; rfl⟩
    | some res =>
      cases h2 : extractCsrfToken (env 2) with
      | none =>
        have hcalls : (runAuthProcedure env sid c).calls =
            [loginTokenRequest sid, loginRequest sid c t1,
             csrfTokenRequest sid] := by
          simp [runAuthProcedure, h0, h1, h2]
        rw [hcalls] at hmem
        simp at hmem
        rcases hmem with hmem | hmem | hmem <;> subst hmem
        · simp at hl
        · exact ⟨t1, rfl, rfl, by rw [hcalls]; rfl, by rw [hcalls]; rfl⟩
        · simp at hl
      | some t2 =>
        have hcalls : (runAuthProcedure env sid c).calls =
            [loginTokenRequest sid, loginRequest sid c t1,
             csrfTokenRequest sid] := by
          simp [runAuthProcedure, h0, h1, h2]
        rw [hcalls] at hmem
        simp at hmem
        rcases hmem with hmem | hmem | hmem <;> subst hmem
        · simp at hl
        · exact ⟨t1, rfl, rfl, by rw [hcalls]; rfl, by rw [hcalls]; rfl⟩
        · simp at hl

/-- C3 counterexample: the commit is not guarded by an authenticated
session. On mocked responses whose login result is `Failed` — so the
session never left the Unauthenticated state — the run still issues
the `wbcreateclaim` commit request, refuting the claim that the commit
is never issued unless the edit token was obtained within an
authenticated session. -/
theorem commit_without_authenticated_session_cex :
    extractLoginResult (failEnv 1) = some "Failed" ∧
    "Failed" ≠ "Success" ∧
    isCreateClaim (createClaimRequest 0 demoPayload "T2") = true ∧
    (createClaimRequest 0 demoPayload "T2") ∈
      (runWriteProcedure failEnv 0 demoCreds demoPayload).calls :=
  ⟨rfl, by decide, rfl, by decide⟩

/-- C3 amended: in every run, a commit (`wbcreateclaim`) request is
only ever issued after an edit-token request on the same session,
strictly earlier in the trace, and the token it carries is exactly the
edit token extracted from the response to that edit-token request; all
requests carry the session created for the run, so no token crosses
sessions. The session, however, need not be authenticated: the code
issues the commit even when the login step reported failure. -/
theorem commit_needs_fresh_session_token (env : Nat → Json) (sid : Nat)
    (c : Credentials) (p : ClaimPayload) (r : Request)
    (hmem : r ∈ (runWriteProcedure env sid c p).calls)
    (hcc : isCreateClaim r = true) :
    ∃ t, (runWriteProcedure env sid c p).calls.get? 2 =
        some (csrfTokenRequest sid) ∧
      (runWriteProcedure env sid c p).calls.get? 3 = some r ∧
      extractCsrfToken (env 2) = some t ∧
      requestParam r "token" = some t ∧
      r.sessionId = sid ∧ (csrfTokenRequest sid).sessionId = sid := by
  obtain ⟨t1, res, t2, _h0, _h1, h2, hr, hcalls⟩ :=
    createClaim_mem_structure env sid c p r hmem hcc
  subst hr
  exact ⟨t2, by rw [hcalls]; rfl, by rw [hcalls]; rfl, h2, rfl, rfl, rfl⟩

/-- C3 witness: on the mocked environment the commit request sits at
position 3, after the edit-token request at position 2, and carries the
token `T2` extracted from that response, on session 0. -/
theorem commit_needs_fresh_session_token_witness :
    (createClaimRequest 0 demoPayload "T2") ∈
      (runWriteProcedure happyEnv 0 demoCreds demoPayload).calls ∧
    ∃ t, (runWriteProcedure happyEnv 0 demoCreds demoPayload).calls.get? 2 =
        some (csrfTokenRequest 0) ∧
      (runWriteProcedure happyEnv 0 demoCreds demoPayload).calls.get? 3 =
        some (createClaimRequest 0 demoPayload "T2") ∧
      extractCsrfToken (happyEnv 2) = some t ∧
      requestParam (createClaimRequest 0 demoPayload "T2") "token" = some t ∧
      (createClaimRequest 0 demoPayload "T2").sessionId = 0 ∧
      (csrfTokenRequest 0).sessionId = 0 :=
  ⟨by decide,
   commit_needs_fresh_session_token happyEnv 0 demoCreds demoPayload
     (createClaimRequest 0 demoPayload "T2") (by decide) (by decide)⟩

/-- C4: for every credentials pair, any authenticate (login) request in
a run of the authentication cells comes strictly after the login-token
request (positions 1 and 0 of the trace), carries as `lgtoken` exactly
the login token extracted from the first response, and both requests go
through the same session. -/
theorem authenticate_after_login_token (env : Nat → Json) (sid : Nat)
    (c : Credentials) (r : Request)
    (hmem : r ∈ (runAuthProcedure env sid c).calls)
    (hl : isLoginCall r = true) :
    ∃ t1, extractLoginToken (env 0) = some t1 ∧
      (runAuthProcedure env sid c).calls.get? 0 =
        some (loginTokenRequest sid) ∧
      (runAuthProcedure env sid c).calls.get? 1 = some r ∧
      requestParam r "lgtoken" = some t1 ∧
      r.sessionId = sid ∧ (loginTokenRequest sid).sessionId = sid := by
  obtain ⟨t1, h0, hr, hget0, hget1⟩ := login_mem_structure env sid c r hmem hl
  subst hr
  exact ⟨t1, h0, hget0, hget1, rfl, rfl, rfl⟩

/-- C4 witness: on the mocked environment the login request sits at
position 1 with `lgtoken` equal to the extracted token `T1`, after the
login-token request at position 0, both on session 0. -/
theorem authenticate_after_login_token_witness :
    (loginRequest 0 demoCreds "T1") ∈
      (runAuthProcedure happyEnv 0 demoCreds).calls ∧
    ∃ t1, extractLoginToken (happyEnv 0) = some t1 ∧
      (runAuthProcedure happyEnv 0 demoCreds).calls.get? 0 =
        some (loginTokenRequest 0) ∧
      (runAuthProcedure happyEnv 0 demoCreds).calls.get? 1 =
        some (loginRequest 0 demoCreds "T1") ∧
      requestParam (loginRequest 0 demoCreds "T1") "lgtoken" = some t1 ∧
      (loginRequest 0 demoCreds "T1").sessionId = 0 ∧
      (loginTokenRequest 0).sessionId = 0 :=
  ⟨by decide,
   authenticate_after_login_token happyEnv 0 demoCreds
     (loginRequest 0 demoCreds "T1") (by decide) (by decide)⟩

/-- C5: the commit-write step, given a claim payload and an edit token,
returns either a confirmation (new statement identifier and revision
id) or a failure indication; there is no third outcome. -/
theorem commit_write_two_outcomes
    (remote : ClaimPayload → String → CommitResult) (p : ClaimPayload)
    (token : String) :
    (∃ stid rev, commitWrite remote p token = .confirmation stid rev) ∨
    (∃ e, commitWrite remote p token = .failure e) := by
  cases h : commitWrite remote p token with
  | confirmation stid rev => exact .inl ⟨stid, rev, rfl⟩
  | failure e => exact .inr ⟨e, rfl⟩

/-- C6: in every run of the write sequence, whatever the environment
answers, the trace holds at most one commit (`wbcreateclaim`) request:
there is no path that sends it twice and no retry after a failure. -/
theorem commit_at_most_once (env : Nat → Json) (sid : Nat)
    (c : Credentials) (p : ClaimPayload) :
    ((runWriteProcedure env sid c p).calls.filter isCreateClaim).length ≤ 1 := by
  cases h0 : extractLoginToken (env 0) with
  | none => simp [runWriteProcedure, runAuthProcedure, h0]
  | some t1 =>
    cases h1 : extractLoginResult (env 1) with
    | none => simp [runWriteProcedure, runAuthProcedure, h0, h1]
    | some res =>
      cases h2 : extractCsrfToken (env 2) with
      | none => simp [runWriteProcedure, runAuthProcedure, h0, h1, h2]
      | some t2 =>
        simp [runWriteProcedure, runAuthProcedure, commitStep, h0, h1, h2]

/-- C7: the commit step performs no deduplication: running it twice
with the same session, payload and edit token appends two identical
outbound write requests to the trace, so the remote receives two
commit requests (two distinct side effects), not one. -/
theorem commit_twice_no_dedup (sid : Nat) (p : ClaimPayload)
    (token : String) (calls : List Request) :
    commitStep sid p token (commitStep sid p token calls) =
      calls ++ [createClaimRequest sid p token,
                createClaimRequest sid p token] ∧
    ((commitStep sid p token (commitStep sid p token calls)).filter
        isCreateClaim).length =
      (calls.filter isCreateClaim).length + 2 := by
  constructor
  · simp [commitStep]
  · simp [commitStep, List.filter_append]

/-- C8: no error is recovered locally. When an extraction fails the run
returns exactly that error and its trace stops at the failing call,
with no retry and no further request; when the run completes, the login
result string (including a failure result) reaches the caller
verbatim; and every request ever issued is one of the four sequence
steps (query, login, wbcreateclaim), so no compensating call such as
undoing a partial login is ever made. -/
theorem errors_propagate_no_recovery (env : Nat → Json) (sid : Nat)
    (c : Credentials) (p : ClaimPayload) :
    ((runWriteProcedure env sid c p).result = .error .loginTokenStep →
      (runWriteProcedure env sid c p).calls = [loginTokenRequest sid]) ∧
    (∀ t1, extractLoginToken (env 0) = some t1 →
      (runWriteProcedure env sid c p).result = .error .loginStep →
      (runWriteProcedure env sid c p).calls =
        [loginTokenRequest sid, loginRequest sid c t1]) ∧
    (∀ t1, extractLoginToken (env 0) = some t1 →
      (runWriteProcedure env sid c p).result = .error .csrfTokenStep →
      (runWriteProcedure env sid c p).calls =
        [loginTokenRequest sid, loginRequest sid c t1,
         csrfTokenRequest sid]) ∧
    (∀ res token j,
      (runWriteProcedure env sid c p).result = .ok (res, token, j) →
      extractLoginResult (env 1) = some res) ∧
    (∀ r ∈ (runWriteProcedure env sid c p).calls,
      requestAction r = some "query" ∨ requestAction r = some "login" ∨
      requestAction r = some "wbcreateclaim") := by
  cases h0 : extractLoginToken (env 0) with
  | none =>
    simp [runWriteProcedure, runAuthProcedure, h0, requestAction,
      requestParam, loginTokenRequest]
  | some t1 =>
    cases h1 : extractLoginResult (env 1) with
    | none =>
      simp [runWriteProcedure, runAuthProcedure, h0, h1, requestAction,
        requestParam, loginTokenRequest, loginRequest]
    | some res =>
      cases h2 : extractCsrfToken (env 2) with
      | none =>
        simp [runWriteProcedure, runAuthProcedure, h0, h1, h2,
          requestAction, requestParam, loginTokenRequest, loginRequest,
          csrfTokenRequest]
      | some t2 =>
        simp [runWriteProcedure, runAuthProcedure, commitStep, h0, h1, h2,
          requestAction, requestParam, loginTokenRequest, loginRequest,
          csrfTokenRequest, createClaimRequest]

/-- C8 witness: when every response is an empty object, the run returns
the login-token-step error and its trace is exactly the one failing
call. -/
theorem errors_propagate_no_recovery_witness :
    (runWriteProcedure emptyEnv 0 demoCreds demoPayload).result =
      .error .loginTokenStep ∧
    (runWriteProcedure emptyEnv 0 demoCreds demoPayload).calls =
      [loginTokenRequest 0] :=
  ⟨rfl,
   (errors_propagate_no_recovery emptyEnv 0 demoCreds demoPayload).1 rfl⟩

/-- C9: the token carried by any commit request of a run is the edit
token extracted from the third (CSRF-token) response, never the login
token: the cell-21 assignment overwrites the single token binding, so
when the two tokens differ the commit call cannot carry the login
token. -/
theorem commit_token_is_edit_token (env : Nat → Json) (sid : Nat)
    (c : Credentials) (p : ClaimPayload) (lt ct : String) (r : Request)
    (_h0 : extractLoginToken (env 0) = some lt)
    (h2 : extractCsrfToken (env 2) = some ct)
    (hmem : r ∈ (runWriteProcedure env sid c p).calls)
    (hcc : isCreateClaim r = true) :
    requestParam r "token" = some ct ∧
    (lt ≠ ct → requestParam r "token" ≠ some lt) := by
  obtain ⟨t1, res, t2, _h0x, _h1x, h2x, hr, _hcalls⟩ :=
    createClaim_mem_structure env sid c p r hmem hcc
  have ht : t2 = ct := by
    rw [h2x] at h2
    exact Option.some.inj h2
  have hparam : requestParam r "token" = some ct := by
    rw [hr, ht]
    rfl
  refine ⟨hparam, fun hne hEq => hne ?_⟩
  rw [hparam] at hEq
  exact (Option.some.inj hEq).symm

/-- C9 witness: on the mocked environment with login token `T1` and
edit token `T2`, the commit request carries `T2` and not `T1`. -/
theorem commit_token_is_edit_token_witness :
    requestParam (createClaimRequest 0 demoPayload "T2") "token" =
      some "T2" ∧
    ("T1" ≠ "T2" →
      requestParam (createClaimRequest 0 demoPayload "T2") "token" ≠
        some "T1") :=
  commit_token_is_edit_token happyEnv 0 demoCreds demoPayload "T1" "T2"
    (createClaimRequest 0 demoPayload "T2") rfl rfl (by decide) (by decide)

/-- C10: displaying a search hit that has an `id` field never fails:
when the `label` field is missing the empty string is printed in its
place, and when the `description` field is missing the parenthesised
part is omitted; present fields are printed as-is. -/
theorem search_line_total_on_optional_fields (hit : SearchHit)
    (pid : String) (hid : hitField hit "id" = some pid) :
    (∃ s, searchResultLine hit = some s) ∧
    (hitField hit "label" = none → hitField hit "description" = none →
      searchResultLine hit = some (pid ++ ": " ++ "" ++ " " ++ "")) ∧
    (∀ l, hitField hit "label" = some l →
      hitField hit "description" = none →
      searchResultLine hit = some (pid ++ ": " ++ l ++ " " ++ "")) ∧
    (∀ d, hitField hit "label" = none →
      hitField hit "description" = some d →
      searchResultLine hit =
        some (pid ++ ": " ++ "" ++ " " ++ ("(" ++ d ++ ")"))) := by
  cases hl : hitField hit "label" with
  | none =>
    cases hd : hitField hit "description" with
    | none =>
      have hline : searchResultLine hit =
          some (pid ++ ": " ++ "" ++ " " ++ "") := by
        simp [searchResultLine, hid, hl, hd]
      exact ⟨⟨_, hline⟩, fun _ _ => hline,
        fun l hsome _ => Option.noConfusion hsome,
        fun d _ hsome => Option.noConfusion hsome⟩
    | some d =>
      have hline : searchResultLine hit =
          some (pid ++ ": " ++ "" ++ " " ++ ("(" ++ d ++ ")")) := by
        simp [searchResultLine, hid, hl, hd]
      exact ⟨⟨_, hline⟩, fun _ hnone => Option.noConfusion hnone,
        fun l hsome _ => Option.noConfusion hsome,
        fun d2 _ hsome => by
          obtain rfl := Option.some.inj hsome
          exact hline⟩
  | some l =>
    cases hd : hitField hit "description" with
    | none =>
      have hline : searchResultLine hit =
          some (pid ++ ": " ++ l ++ " " ++ "") := by
        simp [searchResultLine, hid, hl, hd]
      exact ⟨⟨_, hline⟩, fun hnone _ => Option.noConfusion hnone,
        fun l2 hsome _ => by
          obtain rfl := Option.some.inj hsome
          exact hline,
        fun d hnone _ => Option.noConfusion hnone⟩
    | some d =>
      have hline : searchResultLine hit =
          some (pid ++ ": " ++ l ++ " " ++ ("(" ++ d ++ ")")) := by
        simp [searchResultLine, hid, hl, hd]
      exact ⟨⟨_, hline⟩, fun hnone _ => Option.noConfusion hnone,
        fun l2 _ hdn => Option.noConfusion hdn,
        fun d2 hln _ => Option.noConfusion hln⟩

/-- C10 witness: a hit holding only an `id` field is displayed without
failure, with empty label and omitted description. -/
theorem search_line_total_on_optional_fields_witness :
    (∃ s, searchResultLine [("id", "Q72")] = some s) ∧
    searchResultLine [("id", "Q72")] =
      some ("Q72" ++ ": " ++ "" ++ " " ++ "") :=
  have h := search_line_total_on_optional_fields [("id", "Q72")] "Q72" rfl
  ⟨h.1, h.2.1 rfl rfl⟩
